import Mathlib

/-!
Shallow embedding of the Nanus sales-report analysis scripts.

The repository loads a CSV export of e-commerce orders, computes per-location
aggregates (order counts, processing sales, refund totals) and compares them
against externally supplied reference numbers.  Monetary amounts are modelled
as rationals; a numeric cell that fails to parse becomes `none` (pandas NaN).
-/

namespace NanusReport

/-- Python `abs` on rational amounts. -/
def ratAbs (q : ℚ) : ℚ := if q < 0 then -q else q

/-- One row of the order table after loading (`cleaned_csv_analysis.py`).
Numeric fields are `Option ℚ`: `none` is the missing-value marker (NaN)
produced by `pd.to_numeric(..., errors='coerce')`. -/
structure OrderRecord where
  orderId : String
  location : Option String
  status : String
  totalAmount : Option ℚ
  totalMinusRefund : Option ℚ
  refundAmount : Option ℚ
deriving DecidableEq

/-- A raw CSV cell before numeric coercion. -/
inductive Cell where
  | num (q : ℚ)
  | text (s : String)
  | blank
deriving DecidableEq

/-- Model of `pd.to_numeric(col, errors='coerce')`: a cell that does not hold a number
is coerced to the missing-value marker instead of raising. -/
def toNumericCoerce : Cell → Option ℚ
  | Cell.num q => some q
  | Cell.text _ => none
  | Cell.blank => none

/-- Model of `pd.to_numeric(col, errors='coerce').fillna(0)` as used for the
`Refund Amount` column in `csv_analysis.py` and `comprehensive_analysis.py`. -/
def toNumericFillZero (c : Cell) : ℚ := (toNumericCoerce c).getD 0

/-- One raw CSV row (the numeric columns still unparsed). -/
structure RawRow where
  orderId : String
  location : Option String
  status : String
  totalAmountCell : Cell
  totalMinusRefundCell : Cell
  refundAmountCell : Cell
deriving DecidableEq

/-- Loading one row: numeric columns go through `to_numeric(..., errors='coerce')`
(`cleaned_csv_analysis.py` lines 16-18). -/
def loadRow (row : RawRow) : OrderRecord :=
  { orderId := row.orderId
    location := row.location
    status := row.status
    totalAmount := toNumericCoerce row.totalAmountCell
    totalMinusRefund := toNumericCoerce row.totalMinusRefundCell
    refundAmount := toNumericCoerce row.refundAmountCell }

/-- Loading the table: reading the whole table never raises on a bad numeric cell. -/
def load (rows : List RawRow) : List OrderRecord := rows.map loadRow

/-- Model of `df.dropna(subset=['Location'])` (line 21). -/
def dropNaLocation (records : List OrderRecord) : List OrderRecord :=
  records.filter (fun r => r.location.isSome)

/-- Dictionary lookup in the location aliasT table (`location_mapping`). -/
def lookupAlias (aliasT : List (String × String)) (loc : String) : Option String :=
  (aliasT.find? (fun p => p.1 == loc)).map Prod.snd

/-- The canonical location, if any, of a record under an aliasT table. -/
def canonOf (aliasT : List (String × String)) (r : OrderRecord) : Option String :=
  r.location.bind (lookupAlias aliasT)

/-- The normalize step: `df = df[df['Location'].isin(location_mapping.keys())]` followed by
`df['Location'] = df['Location'].map(location_mapping)`
(`cleaned_csv_analysis.py` lines 36-38). -/
def normalize (aliasT : List (String × String)) (records : List OrderRecord) :
    List OrderRecord :=
  (records.filter (fun r => (canonOf aliasT r).isSome)).map
    (fun r => { r with location := canonOf aliasT r })

/-- Model of `df[df['Status'] == 'Processing']` (line 41). -/
def processingOrders (records : List OrderRecord) : List OrderRecord :=
  records.filter (fun r => r.status == "Processing")

/-- Model of `df[df['Status'] == 'Refunded']` (line 42). -/
def refundedOrders (records : List OrderRecord) : List OrderRecord :=
  records.filter (fun r => r.status == "Refunded")

/-- pandas `Series.sum()`: missing values are skipped. -/
def sumOpt (xs : List (Option ℚ)) : ℚ := (xs.filterMap id).sum

/-- An aggregate bucket: order count plus the summed amount field. -/
structure Bucket where
  count : Nat
  sum : ℚ
deriving DecidableEq

/-- Rows of a given canonical location. -/
def atLocation (loc : String) (records : List OrderRecord) : List OrderRecord :=
  records.filter (fun r => r.location == some loc)

/-- The aggregate step (`cleaned_csv_analysis.py` lines 92-102): for each canonical
location (`location_mapping.values()`), the processing bucket counts the
processing rows and sums their `Total Amount`; the refunded bucket counts the
refunded rows and takes the absolute value of the sum of their
`Total (- Refund)`. -/
def aggregate (aliasT : List (String × String)) (records : List OrderRecord) :
    List (String × Bucket × Bucket) :=
  (aliasT.map Prod.snd).map (fun loc =>
    let lp := atLocation loc (processingOrders records)
    let lr := atLocation loc (refundedOrders records)
    (loc,
     { count := lp.length, sum := sumOpt (lp.map (fun r => r.totalAmount)) },
     { count := lr.length,
       sum := ratAbs (sumOpt (lr.map (fun r => r.totalMinusRefund))) }))

/-- One row of the per-location comparison table built in
`cleaned_csv_analysis.py` lines 104-113 (`results[location]`). -/
structure ComparisonRow where
  csv_processing_sales : ℚ
  csv_processing_orders : Nat
  csv_refunds : ℚ
  csv_refunded_orders : Nat
  platform_processing_sales : ℚ
  platform_processing_orders : Nat
  platform_refunds : ℚ
  platform_refunded_orders : Nat
deriving DecidableEq

/-- The per-field verdicts computed for one location
(`cleaned_csv_analysis.py` lines 126-153). -/
structure LocationVerdict where
  sales_diff : ℚ
  sales_match : Bool
  orders_match : Bool
  refund_diff : ℚ
  refund_match : Bool
  refunded_orders_match : Bool
deriving DecidableEq

/-- The compare step for one location: monetary fields match when the absolute
difference is below 0.01 (`sales_diff < 0.01`), count fields match when
exactly equal (`cleaned_csv_analysis.py` lines 126-153). -/
def compareLocation (d : ComparisonRow) : LocationVerdict :=
  let sales_diff := ratAbs (d.csv_processing_sales - d.platform_processing_sales)
  let refund_diff := ratAbs (d.csv_refunds - d.platform_refunds)
  { sales_diff := sales_diff
    sales_match := decide (sales_diff < 1/100)
    orders_match := d.csv_processing_orders == d.platform_processing_orders
    refund_diff := refund_diff
    refund_match := decide (refund_diff < 1/100)
    refunded_orders_match := d.csv_refunded_orders == d.platform_refunded_orders }

/-- A location counts as discrepant when any of its four fields mismatches
(`cleaned_csv_analysis.py` line 155). -/
def hasDiscrepancy (v : LocationVerdict) : Bool :=
  !(v.sales_match && v.orders_match && v.refund_match && v.refunded_orders_match)

/-- Per-location statistics as used in `platform_vs_csv_comparison.py`
(`csv_data` / `platform_data` entries). -/
structure LocStats where
  orders : Int
  processing : Int
  refunded : Int
  processing_sales : ℚ
  refund_amount : ℚ
deriving DecidableEq

/-- Model of `dict.get(key)` on a stats table. -/
def lookupStats (m : List (String × LocStats)) (k : String) : Option LocStats :=
  (m.find? (fun p => p.1 == k)).map Prod.snd

/-- Model of `location_mapping.get(csv_location, csv_location)`
(`platform_vs_csv_comparison.py` line 63). -/
def mapLoc (mapping : List (String × String)) (k : String) : String :=
  ((mapping.find? (fun p => p.1 == k)).map Prod.snd).getD k

/-- The five per-field differences, computed side minus reference side
(`platform_vs_csv_comparison.py` lines 72-76). -/
structure FieldDiffs where
  orderDiff : Int
  processingDiff : Int
  refundedDiff : Int
  salesDiff : ℚ
  refundAmountDiff : ℚ
deriving DecidableEq

def computeDiffs (c p : LocStats) : FieldDiffs :=
  { orderDiff := c.orders - p.orders
    processingDiff := c.processing - p.processing
    refundedDiff := c.refunded - p.refunded
    salesDiff := c.processing_sales - p.processing_sales
    refundAmountDiff := c.refund_amount - p.refund_amount }

/-- Negating every reported difference (what swapping the two sides does). -/
def negFieldDiffs (d : FieldDiffs) : FieldDiffs :=
  { orderDiff := -d.orderDiff
    processingDiff := -d.processingDiff
    refundedDiff := -d.refundedDiff
    salesDiff := -d.salesDiff
    refundAmountDiff := -d.refundAmountDiff }

/-- The three-way match classification for a key found on both sides
(`platform_vs_csv_comparison.py` lines 85-93).  The script hardcodes the
tolerance 0.01; it is the `eps` parameter here. -/
inductive MatchVerdict where
  | perfectMatch
  | salesOnlyMatch
  | discrepancyDetected
deriving DecidableEq

def classify (eps : ℚ) (d : FieldDiffs) : MatchVerdict :=
  if d.orderDiff == 0 && d.processingDiff == 0 &&
      decide (ratAbs d.salesDiff < eps) then MatchVerdict.perfectMatch
  else if decide (ratAbs d.salesDiff < eps) then MatchVerdict.salesOnlyMatch
  else MatchVerdict.discrepancyDetected

/-- What the comparison loop records for one computed-side key: either the
five field differences with a verdict, or `NOT FOUND IN PLATFORM`
(`platform_vs_csv_comparison.py` lines 70-97). -/
inductive KeyResult where
  | compared (d : FieldDiffs) (v : MatchVerdict)
  | notFoundInPlatform
deriving DecidableEq

def keyResultFor (eps : ℚ) (mapping : List (String × String))
    (platform : List (String × LocStats)) (k : String) (cs : LocStats) :
    KeyResult :=
  match lookupStats platform (mapLoc mapping k) with
  | some ps => KeyResult.compared (computeDiffs cs ps)
      (classify eps (computeDiffs cs ps))
  | none => KeyResult.notFoundInPlatform

/-- The main loop over the computed-side keys (lines 62-99). -/
def comparedKeyResults (eps : ℚ) (mapping : List (String × String))
    (csv platform : List (String × LocStats)) : List (String × KeyResult) :=
  csv.map (fun e => (e.1, keyResultFor eps mapping platform e.1 e.2))

/-- The platform-only scan (lines 102-108): reference keys that are neither a
mapping target nor a computed-side key. -/
def platformOnlyKeys (mapping : List (String × String))
    (csv platform : List (String × LocStats)) : List String :=
  (platform.map Prod.fst).filter (fun pk =>
    !((mapping.map Prod.snd).contains pk) && !((csv.map Prod.fst).contains pk))

/-- Whether a key result increments `total_discrepancies` (lines 92-97). -/
def isMismatch : KeyResult → Bool
  | KeyResult.compared _ v => v == MatchVerdict.discrepancyDetected
  | KeyResult.notFoundInPlatform => true

/-- The keys reported as mismatching by the whole run: discrepant or
not-found computed keys plus all platform-only keys. -/
def mismatchKeys (eps : ℚ) (mapping : List (String × String))
    (csv platform : List (String × LocStats)) : List String :=
  (comparedKeyResults eps mapping csv platform).filterMap
    (fun e => if isMismatch e.2 then some e.1 else none) ++
  platformOnlyKeys mapping csv platform

/-- The result the loop reports for a given computed-side key. -/
def getKeyResult (eps : ℚ) (mapping : List (String × String))
    (csv platform : List (String × LocStats)) (k : String) : Option KeyResult :=
  ((comparedKeyResults eps mapping csv platform).find? (fun e => e.1 == k)).map
    Prod.snd

/-- The all-zero statistics record. -/
def zeroStats : LocStats :=
  { orders := 0, processing := 0, refunded := 0, processing_sales := 0,
    refund_amount := 0 }

/-- From `csv_analysis.py`: the Cottman substring filter pattern (line 13). -/
def cottmanPat : String := "2210 Cottman Ave, Philadelphia, PA"

/-- Substring membership, as `str.contains` does on pandas strings. -/
def strContainsSub (s pat : String) : Bool := 2 ≤ (s.splitOn pat).length

/-- Model of `df['Location'].str.contains(pat, na=False)`: a missing location compares
false. -/
def locContainsNaFalse (loc : Option String) (pat : String) : Bool :=
  match loc with
  | none => false
  | some s => strContainsSub s pat

/-- Model of `cottman_orders` (`csv_analysis.py` line 13). -/
def cottmanOrders (records : List OrderRecord) : List OrderRecord :=
  records.filter (fun r => locContainsNaFalse r.location cottmanPat)

/-- The row predicate of `cottman_orders['Total Amount'] >= 0`: a missing
amount (NaN) compares false, exactly as in pandas. -/
def totalAmountGeZero (r : OrderRecord) : Bool :=
  match r.totalAmount with
  | none => false
  | some q => decide (0 ≤ q)

/-- Model of `cottman_orders_clean` (`csv_analysis.py` line 16). -/
def cottmanOrdersClean (records : List OrderRecord) : List OrderRecord :=
  (cottmanOrders records).filter totalAmountGeZero

/-- Model of `total_orders` (line 19). -/
def cottmanTotalOrders (records : List OrderRecord) : Nat :=
  (cottmanOrdersClean records).length

/-- Model of `refunded_orders` (line 21). -/
def cottmanRefunded (records : List OrderRecord) : List OrderRecord :=
  (cottmanOrdersClean records).filter (fun r => r.status == "Refunded")

/-- Model of `processing_orders` (line 26). -/
def cottmanProcessing (records : List OrderRecord) : List OrderRecord :=
  (cottmanOrdersClean records).filter (fun r => r.status == "Processing")

/-- One entry of `status_breakdown = cottman_orders_clean['Status'].value_counts()`
(line 39). -/
def cottmanStatusCount (records : List OrderRecord) (st : String) : Nat :=
  ((cottmanOrdersClean records).filter (fun r => r.status == st)).length

/-- Model of `csv_order_ids = set(cottman_orders_clean['Order ID'].astype(str))`
(line 46). -/
def cottmanOrderIds (records : List OrderRecord) : List String :=
  ((cottmanOrdersClean records).map (fun r => r.orderId)).dedup

/-- One hand-entered Drexel order (`drexel_may_analysis.py` lines 13-25). -/
structure DrexelOrder where
  order_id : Nat
  date : String
  status : String
  customer : String
  total : ℚ
  refund : ℚ
deriving DecidableEq

/-- The eleven manual Drexel May 2025 orders from the script. -/
def drexelCsvOrders : List DrexelOrder :=
  [{ order_id := 14983, date := "May 2, 2025 5:16 PM", status := "Processing",
     customer := "Changbo", total := 1605/100, refund := 0 },
   { order_id := 14985, date := "May 8, 2025 11:39 AM", status := "Processing",
     customer := "Grace", total := 1489/100, refund := 0 },
   { order_id := 14989, date := "May 11, 2025 7:25 PM", status := "Processing",
     customer := "Umar", total := 1489/100, refund := 0 },
   { order_id := 14993, date := "May 18, 2025 9:04 PM", status := "Processing",
     customer := "Brendan", total := 1605/100, refund := 0 },
   { order_id := 14994, date := "May 19, 2025 2:09 PM", status := "Processing",
     customer := "Devante", total := 1605/100, refund := 0 },
   { order_id := 14999, date := "May 22, 2025 2:34 PM", status := "Processing",
     customer := "Courtney", total := 2401/100, refund := 0 },
   { order_id := 15001, date := "May 24, 2025 9:32 PM", status := "Processing",
     customer := "Jake", total := 1143/100, refund := 0 },
   { order_id := 15002, date := "May 24, 2025 9:34 PM", status := "Processing",
     customer := "Ethan", total := 1489/100, refund := 0 },
   { order_id := 15006, date := "May 27, 2025 11:02 AM", status := "Processing",
     customer := "Samantha", total := 1143/100, refund := 0 },
   { order_id := 15007, date := "May 27, 2025 11:35 AM", status := "Processing",
     customer := "Audrey", total := 1374/100, refund := 0 },
   { order_id := 15010, date := "May 30, 2025 12:27 PM", status := "Processing",
     customer := "", total := 1143/100, refund := 0 }]

def drexelCsvTotalSales : ℚ := (drexelCsvOrders.map (fun o => o.total)).sum

def drexelCsvTotalOrders : Nat := drexelCsvOrders.length

def drexelCsvTotalRefunds : ℚ := (drexelCsvOrders.map (fun o => o.refund)).sum

/-- The JSON body of the dashboard-summary endpoint; every field is read with
`.get(field, 0)`, so each is optional with default 0. -/
structure PlatformSummary where
  totalSales : Option ℚ
  totalOrders : Option Int
  totalRefunds : Option ℚ
  platformFees : Option ℚ
  stripeFees : Option ℚ
  netDeposit : Option ℚ
deriving DecidableEq

/-- Python `abs` on integers. -/
def intAbs (n : Int) : Int := if n < 0 then -n else n

/-- The comparison printed for a 200 response
(`drexel_may_analysis.py` lines 56-77). -/
structure DrexelComparison where
  sales_diff : ℚ
  orders_diff : Int
  refunds_diff : ℚ
  perfect_match : Bool
deriving DecidableEq

def compareWithPlatform (d : PlatformSummary) : DrexelComparison :=
  let sales_diff := ratAbs (drexelCsvTotalSales - d.totalSales.getD 0)
  let orders_diff := intAbs ((drexelCsvTotalOrders : Int) - d.totalOrders.getD 0)
  let refunds_diff := ratAbs (drexelCsvTotalRefunds - d.totalRefunds.getD 0)
  { sales_diff := sales_diff
    orders_diff := orders_diff
    refunds_diff := refunds_diff
    perfect_match := decide (sales_diff < 1/100) && orders_diff == 0 &&
      decide (refunds_diff < 1/100) }

/-- Outcome of `requests.get(...)`: either an HTTP response with a status
code and body, or a `requests.exceptions.ConnectionError`. -/
inductive FetchResult where
  | response (statusCode : Nat) (data : PlatformSummary)
  | connectionError
deriving DecidableEq

/-- How the run ends (`drexel_may_analysis.py` lines 41-92): a full
comparison on a 200 response, `Failed to get platform data: <code>` otherwise,
or the degraded manual-only report on a connection error. -/
inductive RunOutcome where
  | comparedReport (c : DrexelComparison)
  | failedStatus (code : Nat)
  | manualFallback
deriving DecidableEq

def analyzeDrexelMay (fetch : FetchResult) : RunOutcome :=
  match fetch with
  | FetchResult.response code d =>
      if code == 200 then RunOutcome.comparedReport (compareWithPlatform d)
      else RunOutcome.failedStatus code
  | FetchResult.connectionError => RunOutcome.manualFallback

/-- A Cottman row whose `Total Amount` failed numeric coercion. -/
def cottmanMissingAmountRow : OrderRecord :=
  { orderId := "9", location := some cottmanPat, status := "Processing",
    totalAmount := none, totalMinusRefund := none, refundAmount := none }

/-- A Cottman row with a parseable `Total Amount`. -/
def cottmanParsedAmountRow : OrderRecord :=
  { orderId := "10", location := some cottmanPat, status := "Processing",
    totalAmount := some 4, totalMinusRefund := some 4, refundAmount := some 0 }

/-- The three Cottman rows of the spec's aggregation example: two processing
rows of amounts 10.00 and 20.00 and one refunded row of amount 5.00 (its
signed `Total (- Refund)` is −5.00). -/
def cottmanExampleRecords : List OrderRecord :=
  [{ orderId := "1", location := some "Cottman", status := "Processing",
     totalAmount := some 10, totalMinusRefund := some 10, refundAmount := some 0 },
   { orderId := "2", location := some "Cottman", status := "Processing",
     totalAmount := some 20, totalMinusRefund := some 20, refundAmount := some 0 },
   { orderId := "3", location := some "Cottman", status := "Refunded",
     totalAmount := some 5, totalMinusRefund := some (-5), refundAmount := some 5 }]

end NanusReport

namespace NanusReport

theorem ratAbs_eq_abs (q : ℚ) : ratAbs q = |q| := by
  unfold ratAbs
  by_cases h : q < 0
  · simp [h, abs_of_neg h]
  · simp [h, abs_of_nonneg (not_lt.mp h)]

theorem ratAbs_sub_comm (a b : ℚ) : ratAbs (a - b) = ratAbs (b - a) := by
  rw [ratAbs_eq_abs, ratAbs_eq_abs, abs_sub_comm]

/-- C1: monetary fields match exactly when the absolute difference between
computed and reference values is below the fixed tolerance 0.01, and count
fields match exactly when equal; comparing `{count 5, sum 10.00}` against
itself yields no discrepancy, while comparing it against
`{count 5, sum 10.02}` yields exactly one discrepancy, on the sum field,
with difference 0.02. -/
theorem compare_tolerance_semantics :
    (∀ d : ComparisonRow,
      ((compareLocation d).sales_match = true ↔
        |d.csv_processing_sales - d.platform_processing_sales| < 1/100) ∧
      ((compareLocation d).refund_match = true ↔
        |d.csv_refunds - d.platform_refunds| < 1/100) ∧
      ((compareLocation d).orders_match = true ↔
        d.csv_processing_orders = d.platform_processing_orders) ∧
      ((compareLocation d).refunded_orders_match = true ↔
        d.csv_refunded_orders = d.platform_refunded_orders)) ∧
    compareLocation
      { csv_processing_sales := 10, csv_processing_orders := 5,
        csv_refunds := 0, csv_refunded_orders := 0,
        platform_processing_sales := 10, platform_processing_orders := 5,
        platform_refunds := 0, platform_refunded_orders := 0 } =
      { sales_diff := 0, sales_match := true, orders_match := true,
        refund_diff := 0, refund_match := true, refunded_orders_match := true } ∧
    compareLocation
      { csv_processing_sales := 10, csv_processing_orders := 5,
        csv_refunds := 0, csv_refunded_orders := 0,
        platform_processing_sales := 10 + 2/100, platform_processing_orders := 5,
        platform_refunds := 0, platform_refunded_orders := 0 } =
      { sales_diff := 2/100, sales_match := false, orders_match := true,
        refund_diff := 0, refund_match := true, refunded_orders_match := true } := by
  refine ⟨fun d => ⟨?_, ?_, ?_, ?_⟩,
    by norm_num [compareLocation, ratAbs], by norm_num [compareLocation, ratAbs]⟩
  · simp [compareLocation, ratAbs_eq_abs]
  · simp [compareLocation, ratAbs_eq_abs]
  · simp [compareLocation]
  · simp [compareLocation]

/-- C6: on the Cottman example (two processing rows of 10.00 and 20.00, one
refunded row of amount 5.00), `aggregate` yields processing bucket
`{count 2, sum 30.00}` and refunded bucket `{count 1, sum 5.00}`. -/
theorem aggregate_cottman_example :
    aggregate [("Cottman", "Cottman")] cottmanExampleRecords =
      [("Cottman", { count := 2, sum := 30 }, { count := 1, sum := 5 })] := by
  norm_num [aggregate, cottmanExampleRecords, atLocation, processingOrders,
    refundedOrders, sumOpt, ratAbs, List.filter, List.filterMap]

theorem sum_indicator_not_mem {L : List String} {c : String} (h : c ∉ L) :
    (L.map (fun loc => if c = loc then (1 : Nat) else 0)).sum = 0 := by
  induction L with
  | nil => rfl
  | cons x xs ih =>
      have hx : c ≠ x := fun he => h (he ▸ List.mem_cons_self x xs)
      have hxs : c ∉ xs := fun hm => h (List.mem_cons_of_mem x hm)
      simp [hx, ih hxs]

theorem sum_indicator_mem {L : List String} {c : String} (hN : L.Nodup)
    (h : c ∈ L) :
    (L.map (fun loc => if c = loc then (1 : Nat) else 0)).sum = 1 := by
  induction L with
  | nil => cases h
  | cons x xs ih =>
      rcases List.mem_cons.mp h with he | hm
      · subst he
        have hxs : c ∉ xs := (List.nodup_cons.mp hN).1
        simp [sum_indicator_not_mem hxs]
      · have hx : c ≠ x := by
          intro he
          exact (List.nodup_cons.mp hN).1 (he ▸ hm)
        simp [hx, ih (List.nodup_cons.mp hN).2 hm]

/-- Counting lemma: when the canonical locations `L` are pairwise distinct and
every record's location lies in `L`, the per-location row counts add up to the
total row count. -/
theorem sum_length_filter_atLocation (L : List String) (hL : L.Nodup)
    (recs : List OrderRecord)
    (hmem : ∀ r ∈ recs, ∃ c ∈ L, r.location = some c) :
    (L.map (fun loc => (atLocation loc recs).length)).sum = recs.length := by
  induction recs with
  | nil => simp [atLocation]
  | cons r rs ih =>
      rcases hmem r (List.mem_cons_self r rs) with ⟨c, hcL, hcloc⟩
      have hrs : ∀ x ∈ rs, ∃ c ∈ L, x.location = some c := fun x hx =>
        hmem x (List.mem_cons_of_mem r hx)
      have hsplit : ∀ loc, (atLocation loc (r :: rs)).length =
          (if c = loc then 1 else 0) + (atLocation loc rs).length := by
        intro loc
        unfold atLocation
        rw [List.filter_cons]
        by_cases hcl : c = loc
        · have hb : (r.location == some loc) = true := by
            rw [hcloc, hcl]; simp
          simp [hb, hcl]
          omega
        · have hb : (r.location == some loc) = false := by
            rw [hcloc]
            simp only [beq_eq_false_iff_ne, ne_eq, Option.some.injEq]
            exact hcl
          simp [hb, hcl]
      calc (L.map (fun loc => (atLocation loc (r :: rs)).length)).sum
          = (L.map (fun loc =>
              (if c = loc then 1 else 0) + (atLocation loc rs).length)).sum := by
            simp only [hsplit]
        _ = (L.map (fun loc => if c = loc then 1 else 0)).sum +
              (L.map (fun loc => (atLocation loc rs).length)).sum := by
            rw [← List.sum_map_add]
        _ = 1 + rs.length := by rw [sum_indicator_mem hL hcL, ih hrs]
        _ = (r :: rs).length := by simp [Nat.add_comm]

/-- Every record surviving `normalize` carries a canonical location, i.e. one
of the alias table's values. -/
theorem normalize_location_mem (aliasT : List (String × String))
    (records : List OrderRecord) :
    ∀ r' ∈ normalize aliasT records, ∃ c ∈ aliasT.map Prod.snd,
      r'.location = some c := by
  intro r' hr'
  unfold normalize at hr'
  rcases List.mem_map.mp hr' with ⟨r, hrmem, hEq⟩
  rcases List.mem_filter.mp hrmem with ⟨_, hsome⟩
  rcases Option.isSome_iff_exists.mp hsome with ⟨c, hc⟩
  refine ⟨c, ?_, by rw [← hEq, hc]⟩
  cases hloc : r.location with
  | none =>
      unfold canonOf at hc
      rw [hloc] at hc
      simp at hc
  | some loc =>
      have hl : lookupAlias aliasT loc = some c := by
        unfold canonOf at hc
        rw [hloc] at hc
        simpa using hc
      unfold lookupAlias at hl
      rcases Option.map_eq_some'.mp hl with ⟨p, hfind, hsnd⟩
      exact hsnd ▸ List.mem_map_of_mem Prod.snd (List.mem_of_find?_eq_some hfind)

/-- Statuses other than the two recognized classes contribute to neither
count: splitting a row set by two mutually exclusive statuses. -/
theorem length_filter_status_split (recs : List OrderRecord) :
    (processingOrders recs).length + (refundedOrders recs).length =
      (recs.filter
        (fun r => r.status == "Processing" || r.status == "Refunded")).length := by
  unfold processingOrders refundedOrders
  induction recs with
  | nil => rfl
  | cons r rs ih =>
      simp only [List.filter_cons]
      by_cases h1 : r.status = "Processing"
      · have b1 : (r.status == "Processing") = true := by rw [h1]; decide
        have b2 : (r.status == "Refunded") = false := by rw [h1]; decide
        simp [b1, b2]
        omega
      · by_cases h2 : r.status = "Refunded"
        · have b1 : (r.status == "Processing") = false := by rw [h2]; decide
          have b2 : (r.status == "Refunded") = true := by rw [h2]; decide
          simp [b1, b2]
          omega
        · have b1 : (r.status == "Processing") = false := by
            simp [beq_eq_false_iff_ne, h1]
          have b2 : (r.status == "Refunded") = false := by
            simp [beq_eq_false_iff_ne, h2]
          simp [b1, b2]
          omega

/-- C3: summing all bucket counts of `aggregate` over the normalized records
equals the number of normalized records whose status is Processing or
Refunded; any other status contributes to no bucket. -/
theorem aggregate_counts_partition (aliasT : List (String × String))
    (records : List OrderRecord) (hvals : (aliasT.map Prod.snd).Nodup) :
    ((aggregate aliasT (normalize aliasT records)).map
        (fun e => e.2.1.count + e.2.2.count)).sum =
      ((normalize aliasT records).filter
        (fun r => r.status == "Processing" || r.status == "Refunded")).length := by
  have hproc : ∀ r ∈ processingOrders (normalize aliasT records),
      ∃ c ∈ aliasT.map Prod.snd, r.location = some c := fun r hr =>
    normalize_location_mem aliasT records r (List.mem_of_mem_filter hr)
  have href : ∀ r ∈ refundedOrders (normalize aliasT records),
      ∃ c ∈ aliasT.map Prod.snd, r.location = some c := fun r hr =>
    normalize_location_mem aliasT records r (List.mem_of_mem_filter hr)
  calc ((aggregate aliasT (normalize aliasT records)).map
          (fun e => e.2.1.count + e.2.2.count)).sum
      = ((aliasT.map Prod.snd).map (fun loc =>
          (atLocation loc (processingOrders (normalize aliasT records))).length +
          (atLocation loc (refundedOrders (normalize aliasT records))).length)).sum := by
        unfold aggregate
        rw [List.map_map]
        rfl
    _ = ((aliasT.map Prod.snd).map (fun loc =>
          (atLocation loc (processingOrders (normalize aliasT records))).length)).sum +
        ((aliasT.map Prod.snd).map (fun loc =>
          (atLocation loc (refundedOrders (normalize aliasT records))).length)).sum := by
        rw [← List.sum_map_add]
    _ = (processingOrders (normalize aliasT records)).length +
        (refundedOrders (normalize aliasT records)).length := by
        rw [sum_length_filter_atLocation _ hvals _ hproc,
          sum_length_filter_atLocation _ hvals _ href]
    _ = ((normalize aliasT records).filter
          (fun r => r.status == "Processing" || r.status == "Refunded")).length :=
        length_filter_status_split _

/-- C3 witness: the theorem applied to the Cottman example records (plus one
record with an unrecognized status, which contributes to no bucket). -/
theorem aggregate_counts_partition_witness :
    ((aggregate [("Cottman", "Cottman")]
        (normalize [("Cottman", "Cottman")]
          (cottmanExampleRecords ++
           [{ orderId := "4", location := some "Cottman", status := "Pending",
              totalAmount := some 1, totalMinusRefund := some 1,
              refundAmount := some 0 }]))).map
        (fun e => e.2.1.count + e.2.2.count)).sum =
      ((normalize [("Cottman", "Cottman")]
          (cottmanExampleRecords ++
           [{ orderId := "4", location := some "Cottman", status := "Pending",
              totalAmount := some 1, totalMinusRefund := some 1,
              refundAmount := some 0 }])).filter
        (fun r => r.status == "Processing" || r.status == "Refunded")).length :=
  aggregate_counts_partition [("Cottman", "Cottman")] _ (by decide)

theorem ratAbs_nonneg (q : ℚ) : 0 ≤ ratAbs q := by
  unfold ratAbs
  split <;> linarith

/-- C7: in the cleaned-CSV aggregation variant, the refunded bucket's sum for
any location in the output is the absolute value applied to the sum of the
signed net-amount column `Total (- Refund)` of the refunded records at that
location; in particular it is never negative. -/
theorem aggregate_refund_uses_abs_net (aliasT : List (String × String))
    (records : List OrderRecord) (loc : String) (pB rB : Bucket)
    (h : (loc, pB, rB) ∈ aggregate aliasT records) :
    rB.sum = ratAbs (sumOpt (((refundedOrders records).filter
        (fun r => r.location == some loc)).map
          (fun r => r.totalMinusRefund))) ∧
    0 ≤ rB.sum := by
  unfold aggregate at h
  rcases List.mem_map.mp h with ⟨loc', _, hEq⟩
  have hl : loc' = loc := congrArg Prod.fst hEq
  have hr : rB = { count := (atLocation loc' (refundedOrders records)).length,
                   sum := ratAbs (sumOpt ((atLocation loc'
                     (refundedOrders records)).map
                       (fun r => r.totalMinusRefund))) } :=
    (congrArg (fun p => p.2.2) hEq).symm
  subst hl
  rw [hr]
  exact ⟨rfl, ratAbs_nonneg _⟩

/-- C7 witness: the theorem applied to the Cottman example aggregate. -/
theorem aggregate_refund_uses_abs_net_witness :
    ({ count := 1, sum := 5 } : Bucket).sum =
      ratAbs (sumOpt (((refundedOrders cottmanExampleRecords).filter
        (fun r => r.location == some "Cottman")).map
          (fun r => r.totalMinusRefund))) ∧
    0 ≤ ({ count := 1, sum := 5 } : Bucket).sum :=
  aggregate_refund_uses_abs_net [("Cottman", "Cottman")] cottmanExampleRecords
    "Cottman" { count := 2, sum := 30 } { count := 1, sum := 5 }
    (by norm_num [aggregate, cottmanExampleRecords, atLocation,
      processingOrders, refundedOrders, sumOpt, ratAbs, List.filter,
      List.filterMap])

/-- pandas `Series.sum()` ignores rows whose value is the missing marker. -/
theorem sumOpt_skips_missing (f : OrderRecord → Option ℚ)
    (recs : List OrderRecord) :
    sumOpt (recs.map f) =
      sumOpt ((recs.filter (fun r => (f r).isSome)).map f) := by
  induction recs with
  | nil => rfl
  | cons r rs ih =>
      simp only [sumOpt, List.filterMap_map, Function.id_comp] at ih ⊢
      cases hf : f r <;>
        simp [List.filter_cons, List.filterMap_cons, hf, ih]

/-- C8: a numeric cell that fails to parse loads as the missing-value marker
(never an error); a missing value contributes nothing to any downstream sum,
and the `fillna(0)` variant turns the failure into a zero. -/
theorem numeric_coercion_never_raises :
    (∀ row : RawRow, (∀ q, row.totalAmountCell ≠ Cell.num q) →
        (loadRow row).totalAmount = none) ∧
    (∀ c : Cell, (∀ q, c ≠ Cell.num q) → toNumericFillZero c = 0) ∧
    (∀ recs : List OrderRecord,
        sumOpt (recs.map (fun r => r.totalAmount)) =
          sumOpt ((recs.filter (fun r => r.totalAmount.isSome)).map
            (fun r => r.totalAmount)) ∧
        sumOpt (recs.map (fun r => r.totalMinusRefund)) =
          sumOpt ((recs.filter (fun r => r.totalMinusRefund.isSome)).map
            (fun r => r.totalMinusRefund)) ∧
        sumOpt (recs.map (fun r => r.refundAmount)) =
          sumOpt ((recs.filter (fun r => r.refundAmount.isSome)).map
            (fun r => r.refundAmount))) := by
  refine ⟨?_, ?_, fun recs => ⟨sumOpt_skips_missing _ recs,
    sumOpt_skips_missing _ recs, sumOpt_skips_missing _ recs⟩⟩
  · intro row hq
    unfold loadRow
    cases hc : row.totalAmountCell with
    | num q => exact absurd hc (hq q)
    | text s => simp [toNumericCoerce, hc]
    | blank => simp [toNumericCoerce, hc]
  · intro c hq
    cases hc : c with
    | num q => exact absurd hc (hq q)
    | text s => rfl
    | blank => rfl

/-- C8 witness: an unparseable `Total Amount` cell loads as missing, and a
blank refund cell fills to zero. -/
theorem numeric_coercion_never_raises_witness :
    (loadRow { orderId := "1", location := none, status := "x",
               totalAmountCell := Cell.text "abc",
               totalMinusRefundCell := Cell.blank,
               refundAmountCell := Cell.num 3 }).totalAmount = none ∧
    toNumericFillZero Cell.blank = 0 :=
  ⟨numeric_coercion_never_raises.1 _ (fun _ h => Cell.noConfusion h),
   numeric_coercion_never_raises.2.1 Cell.blank (fun _ h => Cell.noConfusion h)⟩

/-- C9: a connection error is caught and the run degrades to the manual-only
report; any response whose status is not a success (and in fact any status
other than 200) prints the failure and ends without performing the
comparison.  `analyzeDrexelMay` is a total function, so neither case raises. -/
theorem drexel_network_error_handling :
    analyzeDrexelMay FetchResult.connectionError = RunOutcome.manualFallback ∧
    (∀ code d, ¬ (200 ≤ code ∧ code ≤ 299) →
      analyzeDrexelMay (FetchResult.response code d) =
        RunOutcome.failedStatus code) ∧
    (∀ code d, code ≠ 200 →
      analyzeDrexelMay (FetchResult.response code d) =
        RunOutcome.failedStatus code) := by
  refine ⟨rfl, ?_, ?_⟩
  · intro code d h
    have hne : code ≠ 200 := fun he => h (by omega)
    simp [analyzeDrexelMay, hne]
  · intro code d h
    simp [analyzeDrexelMay, h]

/-- C9 witness: a 404 response ends the run with the failure message and no
comparison. -/
theorem drexel_network_error_handling_witness :
    analyzeDrexelMay (FetchResult.response 404
      { totalSales := none, totalOrders := none, totalRefunds := none,
        platformFees := none, stripeFees := none, netDeposit := none }) =
      RunOutcome.failedStatus 404 :=
  drexel_network_error_handling.2.1 404 _ (by omega)

/-- C10: in `csv_analysis.py`, the `Total Amount >= 0` filter evaluates to
false on the missing-value marker, so rows with an unparseable `Total Amount`
are excluded from `cottman_orders_clean` and hence from the order counts, the
status breakdown and the order-ID set of that variant. -/
theorem geZero_filter_excludes_missing :
    (∀ r : OrderRecord, r.totalAmount = none → totalAmountGeZero r = false) ∧
    (∀ records : List OrderRecord,
      (∀ r ∈ cottmanOrdersClean records, r.totalAmount.isSome) ∧
      (∀ r ∈ cottmanProcessing records, r.totalAmount.isSome) ∧
      (∀ r ∈ cottmanRefunded records, r.totalAmount.isSome) ∧
      (∀ st : String, cottmanStatusCount records st =
        ((cottmanOrdersClean records).filter
          (fun r => r.status == st && r.totalAmount.isSome)).length) ∧
      (∀ i ∈ cottmanOrderIds records, ∃ r ∈ cottmanOrdersClean records,
          r.orderId = i ∧ r.totalAmount.isSome)) := by
  have hnan : ∀ r : OrderRecord, r.totalAmount = none →
      totalAmountGeZero r = false := by
    intro r h
    unfold totalAmountGeZero
    rw [h]
  have hclean : ∀ records : List OrderRecord,
      ∀ r ∈ cottmanOrdersClean records, r.totalAmount.isSome := by
    intro records r hr
    have hge : totalAmountGeZero r = true := (List.mem_filter.mp hr).2
    cases h : r.totalAmount with
    | none => rw [hnan r h] at hge; cases hge
    | some q => rfl
  refine ⟨hnan, fun records => ⟨hclean records, ?_, ?_, ?_, ?_⟩⟩
  · intro r hr
    exact hclean records r (List.mem_of_mem_filter hr)
  · intro r hr
    exact hclean records r (List.mem_of_mem_filter hr)
  · intro st
    unfold cottmanStatusCount
    congr 1
    apply List.filter_congr
    intro r hr
    rw [hclean records r hr, Bool.and_true]
  · intro i hi
    rcases List.mem_map.mp (List.mem_dedup.mp hi) with ⟨r, hr, hid⟩
    exact ⟨r, hr, hid, hclean records r hr⟩

/-- C10 witness: a Cottman row whose `Total Amount` failed coercion is
rejected by the `>= 0` filter; on a two-row input the clean set keeps only
the parseable row. -/
theorem geZero_filter_excludes_missing_witness :
    totalAmountGeZero cottmanMissingAmountRow = false ∧
    ∀ r ∈ cottmanOrdersClean [cottmanMissingAmountRow, cottmanParsedAmountRow],
      r.totalAmount.isSome :=
  ⟨geZero_filter_excludes_missing.1 _ rfl,
   (geZero_filter_excludes_missing.2 _).1⟩

theorem lookupStats_cons (p : String × LocStats) (m : List (String × LocStats))
    (k : String) :
    lookupStats (p :: m) k = if p.1 == k then some p.2 else lookupStats m k := by
  unfold lookupStats
  cases h : (p.1 == k) <;> simp [List.find?_cons, h]

theorem lookupStats_none_iff (m : List (String × LocStats)) (k : String) :
    lookupStats m k = none ↔ k ∉ m.map Prod.fst := by
  induction m with
  | nil => simp [lookupStats]
  | cons p m ih =>
      rw [lookupStats_cons]
      by_cases h : p.1 = k
      · have hb : (p.1 == k) = true := beq_iff_eq.mpr h
        simp [hb, h]
      · have hb : (p.1 == k) = false := beq_eq_false_iff_ne.mpr h
        have hk : ¬ k = p.1 := fun he => h he.symm
        simp [hb, ih, hk]

theorem lookupStats_mem_of_some {m : List (String × LocStats)} {k : String}
    {s : LocStats} (h : lookupStats m k = some s) : (k, s) ∈ m := by
  unfold lookupStats at h
  rcases Option.map_eq_some'.mp h with ⟨q, hfind, hsnd⟩
  have hbeq := List.find?_some hfind
  have hq : q = (k, s) := by
    cases q
    simp only [Prod.mk.injEq]
    exact ⟨eq_of_beq (by simpa using hbeq), hsnd⟩
  exact hq ▸ List.mem_of_find?_eq_some hfind

theorem lookupStats_some_of_mem {m : List (String × LocStats)}
    (hm : (m.map Prod.fst).Nodup) {k : String} {s : LocStats}
    (h : (k, s) ∈ m) : lookupStats m k = some s := by
  induction m with
  | nil => cases h
  | cons p m ih =>
      rw [lookupStats_cons]
      rcases List.mem_cons.mp h with he | hmem
      · rw [← he]
        simp
      · have hk : k ∈ m.map Prod.fst := List.mem_map_of_mem Prod.fst hmem
        rw [List.map_cons] at hm
        have hp1 : p.1 ∉ m.map Prod.fst := (List.nodup_cons.mp hm).1
        have hne : (p.1 == k) = false :=
          beq_eq_false_iff_ne.mpr (fun he => hp1 (he ▸ hk))
        simp only [hne, Bool.false_eq_true, if_false]
        exact ih (List.nodup_cons.mp hm).2 hmem

theorem lookupStats_isSome_of_mem_keys {m : List (String × LocStats)}
    {k : String} (h : k ∈ m.map Prod.fst) : ∃ s, lookupStats m k = some s := by
  cases hl : lookupStats m k with
  | none => exact absurd h ((lookupStats_none_iff m k).mp hl)
  | some s => exact ⟨s, rfl⟩

theorem mapLoc_nil (k : String) : mapLoc [] k = k := rfl

theorem getKeyResult_eq_find (eps : ℚ) (mapping : List (String × String))
    (csv platform : List (String × LocStats)) (k : String) :
    getKeyResult eps mapping csv platform k =
      (csv.find? (fun e => e.1 == k)).map
        (fun e => keyResultFor eps mapping platform e.1 e.2) := by
  unfold getKeyResult comparedKeyResults
  simp [List.find?_map, Function.comp_def, Option.map_map]

theorem getKeyResult_of_lookup {eps : ℚ} {mapping : List (String × String)}
    {csv platform : List (String × LocStats)} {k : String} {x : LocStats}
    (h : lookupStats csv k = some x) :
    getKeyResult eps mapping csv platform k =
      some (keyResultFor eps mapping platform k x) := by
  rw [getKeyResult_eq_find]
  unfold lookupStats at h
  rcases Option.map_eq_some'.mp h with ⟨q, hfind, hsnd⟩
  have hbeq := List.find?_some hfind
  have h1 : q.1 = k := eq_of_beq (by simpa using hbeq)
  rw [hfind]
  simp [h1, hsnd]

theorem mem_mismatch_main_iff (eps : ℚ) (mapping : List (String × String))
    (csv platform : List (String × LocStats)) (k : String) :
    (k ∈ (comparedKeyResults eps mapping csv platform).filterMap
        (fun e => if isMismatch e.2 then some e.1 else none)) ↔
      ∃ e ∈ csv, e.1 = k ∧
        isMismatch (keyResultFor eps mapping platform e.1 e.2) = true := by
  unfold comparedKeyResults
  constructor
  · intro h
    rcases List.mem_filterMap.mp h with ⟨a, ha, hfa⟩
    rcases List.mem_map.mp ha with ⟨e, he, hga⟩
    rw [← hga] at hfa
    by_cases hm : isMismatch (keyResultFor eps mapping platform e.1 e.2) = true
    · refine ⟨e, he, ?_, hm⟩
      rw [if_pos hm] at hfa
      exact Option.some.inj hfa
    · rw [if_neg hm] at hfa
      cases hfa
  · rintro ⟨e, he, hk, hm⟩
    apply List.mem_filterMap.mpr
    refine ⟨(e.1, keyResultFor eps mapping platform e.1 e.2),
      List.mem_map_of_mem _ he, ?_⟩
    rw [if_pos hm, hk]

theorem mem_platformOnlyKeys_iff (mapping : List (String × String))
    (csv platform : List (String × LocStats)) (k : String) :
    k ∈ platformOnlyKeys mapping csv platform ↔
      k ∈ platform.map Prod.fst ∧ k ∉ mapping.map Prod.snd ∧
        k ∉ csv.map Prod.fst := by
  unfold platformOnlyKeys
  rw [List.mem_filter]
  simp [List.elem_iff]

theorem classify_discrepancy_iff (eps : ℚ) (d : FieldDiffs) :
    classify eps d = MatchVerdict.discrepancyDetected ↔
      ¬ ratAbs d.salesDiff < eps := by
  unfold classify
  by_cases hcnd : ratAbs d.salesDiff < eps
  · have hd : decide (ratAbs d.salesDiff < eps) = true := decide_eq_true hcnd
    rw [hd]
    cases ho : (d.orderDiff == 0) <;> cases hp : (d.processingDiff == 0) <;>
      simp [ho, hp, hcnd]
  · have hd : decide (ratAbs d.salesDiff < eps) = false := decide_eq_false hcnd
    rw [hd]
    simp [hcnd]

theorem keyResultFor_some {eps : ℚ} {mapping : List (String × String)}
    {platform : List (String × LocStats)} {k : String} {cs ps : LocStats}
    (h : lookupStats platform (mapLoc mapping k) = some ps) :
    keyResultFor eps mapping platform k cs =
      KeyResult.compared (computeDiffs cs ps)
        (classify eps (computeDiffs cs ps)) := by
  unfold keyResultFor
  rw [h]

theorem keyResultFor_none {eps : ℚ} {mapping : List (String × String)}
    {platform : List (String × LocStats)} {k : String} {cs : LocStats}
    (h : lookupStats platform (mapLoc mapping k) = none) :
    keyResultFor eps mapping platform k cs = KeyResult.notFoundInPlatform := by
  unfold keyResultFor
  rw [h]

/-- With no alias entry for `k`, the recorded result is a mismatch exactly
when the reference side lacks `k` or the sales figures differ by at least the
tolerance. -/
theorem isMismatch_keyResultFor_nil (eps : ℚ)
    (platform : List (String × LocStats)) (k : String) (x : LocStats) :
    isMismatch (keyResultFor eps [] platform k x) = true ↔
      ((∃ y, lookupStats platform k = some y ∧
        ¬ ratAbs (x.processing_sales - y.processing_sales) < eps) ∨
       lookupStats platform k = none) := by
  cases hy : lookupStats platform k with
  | none =>
      rw [keyResultFor_none (by rw [mapLoc_nil]; exact hy)]
      simp [isMismatch]
  | some y =>
      rw [keyResultFor_some (by rw [mapLoc_nil]; exact hy)]
      simp [isMismatch, classify_discrepancy_iff, computeDiffs]

/-- Characterization of the mismatching-key set (with the identity location
mapping): a computed key mismatches when the reference side lacks it or the
two processing-sales figures differ by at least the tolerance; a reference
key additionally mismatches when the computed side lacks it. -/
theorem mem_mismatchKeys_iff (eps : ℚ) (csv platform : List (String × LocStats))
    (hc : (csv.map Prod.fst).Nodup) (k : String) :
    k ∈ mismatchKeys eps [] csv platform ↔
      ((∃ x, lookupStats csv k = some x ∧
        ((∃ y, lookupStats platform k = some y ∧
            ¬ ratAbs (x.processing_sales - y.processing_sales) < eps) ∨
          lookupStats platform k = none)) ∨
       (lookupStats csv k = none ∧ ∃ y, lookupStats platform k = some y)) := by
  unfold mismatchKeys
  rw [List.mem_append, mem_mismatch_main_iff, mem_platformOnlyKeys_iff]
  constructor
  · rintro (⟨⟨k1, x⟩, he, hk, hm⟩ | ⟨hpl, _, hncsv⟩)
    · simp only at hk
      subst hk
      left
      have hlx : lookupStats csv k1 = some x := lookupStats_some_of_mem hc he
      exact ⟨x, hlx, (isMismatch_keyResultFor_nil eps platform k1 x).mp hm⟩
    · right
      exact ⟨(lookupStats_none_iff csv k).mpr hncsv,
        lookupStats_isSome_of_mem_keys hpl⟩
  · rintro (⟨x, hlx, hrest⟩ | ⟨hnone, y, hy⟩)
    · left
      exact ⟨(k, x), lookupStats_mem_of_some hlx, rfl,
        (isMismatch_keyResultFor_nil eps platform k x).mpr hrest⟩
    · right
      refine ⟨List.mem_map_of_mem Prod.fst (lookupStats_mem_of_some hy), ?_,
        (lookupStats_none_iff csv k).mp hnone⟩
      simp

/-- C5: with distinct keys on both sides, swapping the computed and reference
maps preserves which keys are reported as mismatching, and on keys present on
both sides the five reported differences merely flip sign. -/
theorem compare_swap_symmetric (eps : ℚ) (X Y : List (String × LocStats))
    (hX : (X.map Prod.fst).Nodup) (hY : (Y.map Prod.fst).Nodup) :
    (∀ k, k ∈ mismatchKeys eps [] X Y ↔ k ∈ mismatchKeys eps [] Y X) ∧
    (∀ k x y, lookupStats X k = some x → lookupStats Y k = some y →
      getKeyResult eps [] X Y k =
        some (KeyResult.compared (computeDiffs x y)
          (classify eps (computeDiffs x y))) ∧
      getKeyResult eps [] Y X k =
        some (KeyResult.compared (computeDiffs y x)
          (classify eps (computeDiffs y x))) ∧
      computeDiffs y x = negFieldDiffs (computeDiffs x y)) := by
  constructor
  · intro k
    rw [mem_mismatchKeys_iff eps X Y hX k, mem_mismatchKeys_iff eps Y X hY k]
    cases hx : lookupStats X k with
    | none =>
        cases hy : lookupStats Y k with
        | none => simp
        | some y => simp
    | some x =>
        cases hy : lookupStats Y k with
        | none => simp
        | some y =>
            simp only [Option.some.injEq, reduceCtorEq, exists_eq_left',
              false_and, and_false, or_false, false_or, exists_false]
            rw [ratAbs_sub_comm x.processing_sales y.processing_sales]
  · intro k x y hx hy
    have h1 : keyResultFor eps ([] : List (String × String)) Y k x =
        KeyResult.compared (computeDiffs x y)
          (classify eps (computeDiffs x y)) :=
      keyResultFor_some (by rw [mapLoc_nil]; exact hy)
    have h2 : keyResultFor eps ([] : List (String × String)) X k y =
        KeyResult.compared (computeDiffs y x)
          (classify eps (computeDiffs y x)) :=
      keyResultFor_some (by rw [mapLoc_nil]; exact hx)
    refine ⟨by rw [getKeyResult_of_lookup hx, h1],
      by rw [getKeyResult_of_lookup hy, h2], ?_⟩
    unfold computeDiffs negFieldDiffs
    simp only [FieldDiffs.mk.injEq]
    refine ⟨by ring, by ring, by ring, by ring, by ring⟩

/-- C5 witness: the theorem applied to two concrete singleton maps on the
same key with sales figures 10 and 12. -/
theorem compare_swap_symmetric_witness :
    ("A" ∈ mismatchKeys (1/100) []
        [("A", { orders := 1, processing := 1, refunded := 0,
                 processing_sales := 10, refund_amount := 0 })]
        [("A", { orders := 1, processing := 1, refunded := 0,
                 processing_sales := 12, refund_amount := 0 })] ↔
     "A" ∈ mismatchKeys (1/100) []
        [("A", { orders := 1, processing := 1, refunded := 0,
                 processing_sales := 12, refund_amount := 0 })]
        [("A", { orders := 1, processing := 1, refunded := 0,
                 processing_sales := 10, refund_amount := 0 })]) :=
  (compare_swap_symmetric (1/100) _ _ (by decide) (by decide)).1 "A"

/-- C4 counterexample: for the computed-side-only key `"A"` the code reports
`NOT FOUND IN PLATFORM` and performs no per-field comparison at all, so the
missing side is not compared as a zero record (here the present side is the
all-zero record, which a compare-against-zero would declare a full match,
yet the key is still counted as a discrepancy). -/
theorem one_sided_key_not_zero_compared :
    getKeyResult (1/100) [] [("A", zeroStats)] [] "A" =
      some KeyResult.notFoundInPlatform ∧
    (∀ d v, getKeyResult (1/100) [] [("A", zeroStats)] [] "A" ≠
      some (KeyResult.compared d v)) ∧
    "A" ∈ mismatchKeys (1/100) [] [("A", zeroStats)] [] := by
  refine ⟨rfl, ?_, by decide⟩
  intro d v h
  have h2 := Option.some.inj h
  cases h2

/-- C4 (amended): every key present in exactly one of the two maps is
reported as a mismatch — a computed-only key as `NOT FOUND IN PLATFORM`, a
reference-only key in the platform-only scan — but without any per-field
comparison against a zero record. -/
theorem one_sided_keys_reported_mismatch (eps : ℚ)
    (X Y : List (String × LocStats)) (hX : (X.map Prod.fst).Nodup) (k : String)
    (h : ((∃ x, lookupStats X k = some x) ∧ lookupStats Y k = none) ∨
         (lookupStats X k = none ∧ ∃ y, lookupStats Y k = some y)) :
    k ∈ mismatchKeys eps [] X Y ∧
    (lookupStats Y k = none → ∀ x, lookupStats X k = some x →
      getKeyResult eps [] X Y k = some KeyResult.notFoundInPlatform) := by
  constructor
  · rw [mem_mismatchKeys_iff eps X Y hX k]
    rcases h with ⟨⟨x, hx⟩, hy⟩ | ⟨hx, hy⟩
    · exact Or.inl ⟨x, hx, Or.inr hy⟩
    · exact Or.inr ⟨hx, hy⟩
  · intro hy x hx
    rw [getKeyResult_of_lookup hx]
    unfold keyResultFor
    rw [mapLoc_nil, hy]

/-- C4 witness: the amended theorem applied to a concrete computed-only key. -/
theorem one_sided_keys_reported_mismatch_witness :
    "B" ∈ mismatchKeys (1/100) [] [("B", zeroStats)] [] ∧
    (lookupStats [] "B" = none → ∀ x, lookupStats [("B", zeroStats)] "B" = some x →
      getKeyResult (1/100) [] [("B", zeroStats)] [] "B" =
        some KeyResult.notFoundInPlatform) :=
  one_sided_keys_reported_mismatch (1/100) [("B", zeroStats)] [] (by decide)
    "B" (Or.inl ⟨⟨zeroStats, rfl⟩, rfl⟩)

/-- C2: every output of `normalize` comes from an input record whose raw
location is aliased, rewritten to canonical form; and every aliased record
survives with its location rewritten.  In particular a record whose raw
location has no aliasT entry never contributes to the output. -/
theorem normalize_excludes_unmapped (aliasT : List (String × String))
    (records : List OrderRecord) :
    (∀ r' ∈ normalize aliasT records, ∃ r ∈ records, ∃ loc c,
        r.location = some loc ∧ lookupAlias aliasT loc = some c ∧
        r' = { r with location := some c }) ∧
    (∀ r ∈ records, ∀ loc c, r.location = some loc →
        lookupAlias aliasT loc = some c →
        { r with location := some c } ∈ normalize aliasT records) := by
  constructor
  · intro r' hr'
    unfold normalize at hr'
    rcases List.mem_map.mp hr' with ⟨r, hrmem, hEq⟩
    rcases List.mem_filter.mp hrmem with ⟨hr, hsome⟩
    rcases Option.isSome_iff_exists.mp hsome with ⟨c, hc⟩
    have hloc : ∃ loc, r.location = some loc := by
      unfold canonOf at hc
      cases h : r.location with
      | none => rw [h] at hc; simp [Option.bind] at hc
      | some loc => exact ⟨loc, rfl⟩
    rcases hloc with ⟨loc, hlocEq⟩
    refine ⟨r, hr, loc, c, hlocEq, ?_, ?_⟩
    · unfold canonOf at hc
      rw [hlocEq] at hc
      simpa using hc
    · rw [← hEq, hc]
  · intro r hr loc c hloc hcanon
    unfold normalize
    have hc : canonOf aliasT r = some c := by
      unfold canonOf; rw [hloc]; simpa using hcanon
    apply List.mem_map.mpr
    refine ⟨r, List.mem_filter.mpr ⟨hr, by rw [hc]; rfl⟩, by rw [hc]⟩

/-- C2 witness: a concrete record set with one aliased and one unmapped
location; the theorem applies to it. -/
theorem normalize_excludes_unmapped_witness :
    ∃ r ∈ [({ orderId := "1", location := some "raw", status := "Processing",
              totalAmount := some 10, totalMinusRefund := some 10,
              refundAmount := some 0 } : OrderRecord),
           { orderId := "2", location := some "ghost", status := "Processing",
             totalAmount := some 7, totalMinusRefund := some 7,
             refundAmount := some 0 }], ∃ loc c,
      r.location = some loc ∧ lookupAlias [("raw", "canon")] loc = some c ∧
      ({ orderId := "1", location := some "canon", status := "Processing",
         totalAmount := some 10, totalMinusRefund := some 10,
         refundAmount := some 0 } : OrderRecord) =
        { r with location := some c } := by
  have h := (normalize_excludes_unmapped [("raw", "canon")]
      [{ orderId := "1", location := some "raw", status := "Processing",
         totalAmount := some 10, totalMinusRefund := some 10,
         refundAmount := some 0 },
       { orderId := "2", location := some "ghost", status := "Processing",
         totalAmount := some 7, totalMinusRefund := some 7,
         refundAmount := some 0 }]).1
      { orderId := "1", location := some "canon", status := "Processing",
        totalAmount := some 10, totalMinusRefund := some 10,
        refundAmount := some 0 } (by decide)
  exact h

end NanusReport
